import Mathlib

/-!
Shallow embedding of the server-side TLS stream driver of `tokio-rustls`
(`src/server.rs`) and of the deferred-handshake acceptor described by the
specification.  The `TlsStream` poll functions below are translated clause
by clause from `TlsStream::poll_read`, `poll_write`, `poll_flush` and
`poll_shutdown` in `src/server.rs`.  The shutdown-state helpers
(`readable`, `writeable`, `shutdown_read`, `shutdown_write`) live in the
crate's `common` module, which is not part of the sources at hand; they are
modelled from the specification's shutdown state machine (§3, §4.1).
-/

namespace TokioRustls

/-- The four shutdown states of a server stream, as matched on in
`src/server.rs` (`TlsState::Stream`, `ReadShutdown`, `WriteShutdown`,
`FullyShutdown`; the early-data variants are client-only and unreachable
for servers). -/
inductive TlsState where
  | Stream
  | ReadShutdown
  | WriteShutdown
  | FullyShutdown
  deriving DecidableEq, Repr

namespace TlsState

/-- Modelled from the spec: `is_readable` of the Shutdown State Machine
(§4.1); the `common` module defining it is not among the sources.  A state
is readable unless the read direction has completed its close sequence. -/
def readable : TlsState → Bool
  | .Stream => true
  | .WriteShutdown => true
  | .ReadShutdown => false
  | .FullyShutdown => false

/-- Modelled from the spec: `is_writable` of the Shutdown State Machine
(§4.1); the `common` module defining it is not among the sources.  A state
is writeable unless the write direction has completed its close sequence. -/
def writeable : TlsState → Bool
  | .Stream => true
  | .ReadShutdown => true
  | .WriteShutdown => false
  | .FullyShutdown => false

/-- Modelled from the spec: `mark_read_closed` (§4.1), monotonic per §3 —
closing the read direction preserves the write direction's status and
cannot reopen anything. -/
def shutdown_read : TlsState → TlsState
  | .Stream => .ReadShutdown
  | .ReadShutdown => .ReadShutdown
  | .WriteShutdown => .FullyShutdown
  | .FullyShutdown => .FullyShutdown

/-- Modelled from the spec: `mark_write_closed` (§4.1), monotonic per §3 —
closing the write direction preserves the read direction's status and
cannot reopen anything. -/
def shutdown_write : TlsState → TlsState
  | .Stream => .WriteShutdown
  | .WriteShutdown => .WriteShutdown
  | .ReadShutdown => .FullyShutdown
  | .FullyShutdown => .FullyShutdown

end TlsState

/-- The error kinds of `std::io::ErrorKind` that the driver inspects;
every other kind is collapsed into `Other` with a numeric code so that
distinct errors stay distinct. -/
inductive ErrorKind where
  | ConnectionAborted
  | UnexpectedEof
  | WouldBlock
  | Other (code : Nat)
  deriving DecidableEq, Repr

/-- An `std::io::Error` value: its kind plus an opaque payload so that
"propagated unchanged" is about the whole value, not just the kind. -/
structure IOError where
  kind : ErrorKind
  payload : Nat
  deriving DecidableEq, Repr

/-- Shape of `std::task::Poll` over a fallible result, the return type of
the async poll functions. -/
inductive Poll (α : Type) where
  | Ready (v : Except IOError α)
  | Pending
  deriving Repr

/-- The observable effect of the TLS session engine that the driver's
logic touches: `send_close_notify` queues a close-notify record.  We count
how many have been queued, which is exactly what duplicate-close-notify
claims are about. -/
structure ServerSession where
  closeNotifyCount : Nat
  deriving DecidableEq, Repr

/-- Engine operation `send_close_notify` (rustls, external collaborator):
queues one close-notify record. -/
def ServerSession.send_close_notify (s : ServerSession) : ServerSession :=
  { s with closeNotifyCount := s.closeNotifyCount + 1 }

/-- The driver-visible portion of a server `TlsStream`: its shutdown state
and its session engine.  The raw transport is external; each poll function
takes the outcome the inner `Stream` poll would produce on this call as an
explicit argument. -/
structure TlsStream where
  state : TlsState
  session : ServerSession
  deriving DecidableEq, Repr

/-- Translation of `TlsStream::poll_read` from `src/server.rs`, clause by
clause.
`inner` is the outcome of `stream.as_mut_pin().poll_read(cx, buf)`, the
one bounded transport/engine pump of this poll; it is consulted only in
the `Stream`/`WriteShutdown` arm, exactly as in the source, where the
`ReadShutdown | FullyShutdown` arm returns `Ready(Ok(0))` without
constructing any I/O. -/
def TlsStream.poll_read (this : TlsStream) (inner : Poll Nat) :
    TlsStream × Poll Nat :=
  match this.state with
  | .Stream | .WriteShutdown =>
    match inner with
    | .Ready (.ok 0) =>
      ({ this with state := this.state.shutdown_read }, .Ready (.ok 0))
    | .Ready (.ok n) => (this, .Ready (.ok n))
    | .Ready (.error err) =>
      if err.kind = ErrorKind.ConnectionAborted then
        let st1 := this.state.shutdown_read
        if st1.writeable then
          ({ state := st1.shutdown_write,
             session := this.session.send_close_notify }, .Ready (.ok 0))
        else
          ({ this with state := st1 }, .Ready (.ok 0))
      else
        (this, .Ready (.error err))
    | .Pending => (this, .Pending)
  | .ReadShutdown | .FullyShutdown => (this, .Ready (.ok 0))

/-- Translation of `TlsStream::poll_write` from `src/server.rs`: it builds the inner
`Stream` and delegates; the driver itself inspects no state and rewrites
no result. -/
def TlsStream.poll_write (this : TlsStream) (inner : Poll Nat) :
    TlsStream × Poll Nat :=
  (this, inner)

/-- Translation of `TlsStream::poll_flush` from `src/server.rs`: delegates to the inner
`Stream` unconditionally. -/
def TlsStream.poll_flush (this : TlsStream) (inner : Poll Unit) :
    TlsStream × Poll Unit :=
  (this, inner)

/-- Translation of `TlsStream::poll_shutdown` from `src/server.rs`: if the write
direction is still open, queue a close-notify and mark write closed, then
delegate to the inner `Stream`'s `poll_shutdown` (the ciphertext drain),
whose outcome on this call is `inner`. -/
def TlsStream.poll_shutdown (this : TlsStream) (inner : Poll Unit) :
    TlsStream × Poll Unit :=
  let this :=
    if this.state.writeable then
      { state := this.state.shutdown_write,
        session := this.session.send_close_notify }
    else
      this
  (this, inner)

/-- One call of the async interface of the server stream, carrying the
outcome the inner `Stream` poll would produce on that call. -/
inductive Op where
  | read (inner : Poll Nat)
  | write (inner : Poll Nat)
  | flush (inner : Poll Unit)
  | shutdown (inner : Poll Unit)

/-- The state reached after one interface call (the value component of the
corresponding poll function). -/
def TlsStream.step (this : TlsStream) : Op → TlsStream
  | .read i => (this.poll_read i).1
  | .write i => (this.poll_write i).1
  | .flush i => (this.poll_flush i).1
  | .shutdown i => (this.poll_shutdown i).1

/-- The state reached after a sequence of interface calls. -/
def TlsStream.run (this : TlsStream) : List Op → TlsStream
  | [] => this
  | op :: ops => (this.step op).run ops

/-- Modelled from the spec: the result of driving the handshake-acceptor
engine with one chunk of transport bytes (§4.3) — the engine either still
needs more bytes, has fully parsed the first flight (yielding the
negotiation request), or rejects malformed input.  The engine itself is an
external collaborator; the crate's acceptor code is not among the
sources. -/
inductive EngineStep (σ : Type) (H : Type) where
  | needMore (st : σ)
  | complete (hello : H)
  | malformed

/-- Modelled from the spec: the two distinguished failures of the deferred
acceptor (§4.3, §7) — end-of-file truncation (`io::ErrorKind::UnexpectedEof`)
is kept apart from malformed data. -/
inductive AcceptError where
  | unexpectedEof
  | decodeError
  deriving DecidableEq, Repr

/-- Modelled from the spec: the transition algorithm of the deferred
acceptor (§4.3): repeatedly drive the engine against the transport until
(a) the first flight is fully parsed, (b) the transport reaches
end-of-file before a complete flight arrives — failing with
unexpected-end-of-data — or (c) the engine rejects malformed input.  The
transport is the list of successful nonempty reads; the end of the list is
end-of-file. -/
def acceptLoop {σ H : Type} (engine : σ → List Nat → EngineStep σ H) :
    σ → List (List Nat) → Except AcceptError H
  | _, [] => .error .unexpectedEof
  | st, c :: rest =>
    match engine st c with
    | .complete h => .ok h
    | .malformed => .error .decodeError
    | .needMore st2 => acceptLoop engine st2 rest

/-- Modelled from the spec: the transport-ownership component of
`LazyConfigAcceptor` (§4.3) — the acceptor owns the transport until it is
reclaimed; resolution or failure leaves the transport (with buffered bytes)
in place for `take_io`. -/
structure LazyConfigAcceptor (T : Type) where
  io : Option T

/-- Modelled from the spec: construction of the deferred acceptor over a
transport (§4.3). -/
def LazyConfigAcceptor.new {T : Type} (t : T) : LazyConfigAcceptor T :=
  ⟨some t⟩

/-- Modelled from the spec: `take_io` (§4.3) — consumes the acceptor and
returns the raw transport; afterwards the acceptor is exhausted and a
second call yields nothing. -/
def LazyConfigAcceptor.take_io {T : Type} (a : LazyConfigAcceptor T) :
    Option T × LazyConfigAcceptor T :=
  match a.io with
  | some t => (some t, ⟨none⟩)
  | none => (none, ⟨none⟩)

/-- The acceptor left after `n` successive `take_io` calls. -/
def LazyConfigAcceptor.afterCalls {T : Type} (a : LazyConfigAcceptor T) :
    Nat → LazyConfigAcceptor T
  | 0 => a
  | n + 1 => ((a.afterCalls n).take_io).2

/-! Helper lemmas about the shutdown state machine. -/

theorem shutdown_read_readable (st : TlsState) :
    st.shutdown_read.readable = false := by
  cases st <;> rfl

theorem shutdown_read_writeable (st : TlsState) :
    st.shutdown_read.writeable = st.writeable := by
  cases st <;> rfl

theorem shutdown_write_writeable (st : TlsState) :
    st.shutdown_write.writeable = false := by
  cases st <;> rfl

theorem shutdown_write_readable (st : TlsState) :
    st.shutdown_write.readable = st.readable := by
  cases st <;> rfl

/-- The state after a `poll_read` is the old state, the old state with read
closed, or the old state with both directions closed — exactly the three
outcomes of the match in `src/server.rs`. -/
theorem poll_read_state_cases (s : TlsStream) (i : Poll Nat) :
    (s.poll_read i).1.state = s.state ∨
    (s.poll_read i).1.state = s.state.shutdown_read ∨
    (s.poll_read i).1.state = s.state.shutdown_read.shutdown_write := by
  rcases s with ⟨st, sess⟩
  cases st
  case ReadShutdown => exact Or.inl rfl
  case FullyShutdown => exact Or.inl rfl
  all_goals
    cases i with
    | Pending => exact Or.inl rfl
    | Ready v =>
      cases v with
      | ok n =>
        cases n with
        | zero => exact Or.inr (Or.inl rfl)
        | succ m => exact Or.inl rfl
      | error e =>
        by_cases hk : e.kind = ErrorKind.ConnectionAborted <;>
          simp [TlsStream.poll_read, hk, TlsState.shutdown_read,
            TlsState.writeable, TlsState.shutdown_write]

/-- The state after a `poll_shutdown` is the old state or the old state
with write closed. -/
theorem poll_shutdown_state_cases (s : TlsStream) (i : Poll Unit) :
    (s.poll_shutdown i).1.state = s.state ∨
    (s.poll_shutdown i).1.state = s.state.shutdown_write := by
  rcases s with ⟨st, sess⟩
  by_cases hw : st.writeable <;>
    simp [TlsStream.poll_shutdown, hw]

theorem step_read_closed_mono (s : TlsStream) (op : Op)
    (h : s.state.readable = false) : (s.step op).state.readable = false := by
  cases op with
  | read i =>
    rcases poll_read_state_cases s i with hc | hc | hc <;>
      simp [TlsStream.step, hc, h, shutdown_read_readable,
        shutdown_write_readable]
  | write i => exact h
  | flush i => exact h
  | shutdown i =>
    rcases poll_shutdown_state_cases s i with hc | hc <;>
      simp [TlsStream.step, hc, h, shutdown_write_readable]

theorem step_write_closed_mono (s : TlsStream) (op : Op)
    (h : s.state.writeable = false) : (s.step op).state.writeable = false := by
  cases op with
  | read i =>
    rcases poll_read_state_cases s i with hc | hc | hc <;>
      simp [TlsStream.step, hc, h, shutdown_read_writeable,
        shutdown_write_writeable]
  | write i => exact h
  | flush i => exact h
  | shutdown i =>
    rcases poll_shutdown_state_cases s i with hc | hc <;>
      simp [TlsStream.step, hc, h, shutdown_write_writeable]

/-- C4: Shutdown-state transitions are monotonic — for every server
`TlsStream` and every sequence of `poll_read`, `poll_write`, `poll_flush`
and `poll_shutdown` calls, once a direction (read or write) is marked
closed no later operation transitions it back to open. -/
theorem run_shutdown_monotonic (s : TlsStream) (ops : List Op) :
    (s.state.readable = false → ((s.run ops).state.readable = false)) ∧
    (s.state.writeable = false → ((s.run ops).state.writeable = false)) := by
  induction ops generalizing s with
  | nil => exact ⟨fun h => h, fun h => h⟩
  | cons op ops ih =>
    refine ⟨fun h => ?_, fun h => ?_⟩
    · exact (ih (s.step op)).1 (step_read_closed_mono s op h)
    · exact (ih (s.step op)).2 (step_write_closed_mono s op h)

/-- Witness for C4 at a concrete fully-shut stream and call sequence. -/
theorem run_shutdown_monotonic_witness :
    ((TlsStream.mk TlsState.FullyShutdown ⟨0⟩).run
        [Op.read Poll.Pending, Op.write (Poll.Ready (Except.ok 3)),
         Op.shutdown (Poll.Ready (Except.ok ()))]).state.readable = false ∧
    ((TlsStream.mk TlsState.FullyShutdown ⟨0⟩).run
        [Op.read Poll.Pending, Op.write (Poll.Ready (Except.ok 3)),
         Op.shutdown (Poll.Ready (Except.ok ()))]).state.writeable = false :=
  ⟨(run_shutdown_monotonic _ _).1 rfl, (run_shutdown_monotonic _ _).2 rfl⟩

/-- C1: when `poll_read` in a readable state (`Stream` or `WriteShutdown`)
observes a transport error of kind `ConnectionAborted`, the read direction
is marked closed; if the write direction was still open at that moment,
exactly one close-notify is queued and the write direction is marked
closed; and the call returns `Ready(Ok(0))`, never an error. -/
theorem poll_read_connection_aborted (s : TlsStream) (e : IOError)
    (hs : s.state = TlsState.Stream ∨ s.state = TlsState.WriteShutdown)
    (he : e.kind = ErrorKind.ConnectionAborted) :
    (s.poll_read (Poll.Ready (Except.error e))).2 = Poll.Ready (Except.ok 0) ∧
    (s.poll_read (Poll.Ready (Except.error e))).1.state.readable = false ∧
    (s.state.writeable = true →
      (s.poll_read (Poll.Ready (Except.error e))).1.state.writeable = false ∧
      (s.poll_read (Poll.Ready (Except.error e))).1.session.closeNotifyCount
        = s.session.closeNotifyCount + 1) ∧
    (s.state.writeable = false →
      (s.poll_read (Poll.Ready (Except.error e))).1.session = s.session) := by
  rcases hs with h | h <;>
    simp [TlsStream.poll_read, h, he, TlsState.shutdown_read,
      TlsState.shutdown_write, TlsState.readable, TlsState.writeable,
      ServerSession.send_close_notify]

/-- Witness for C1: an aborted connection on an open stream. -/
theorem poll_read_connection_aborted_witness :
    ((TlsStream.mk TlsState.Stream ⟨0⟩).poll_read
        (Poll.Ready (Except.error ⟨ErrorKind.ConnectionAborted, 7⟩))).2
      = Poll.Ready (Except.ok 0) ∧
    ((TlsStream.mk TlsState.Stream ⟨0⟩).poll_read
        (Poll.Ready (Except.error ⟨ErrorKind.ConnectionAborted, 7⟩))).1.state.writeable
      = false ∧
    ((TlsStream.mk TlsState.Stream ⟨0⟩).poll_read
        (Poll.Ready (Except.error ⟨ErrorKind.ConnectionAborted, 7⟩))).1.session.closeNotifyCount
      = 1 :=
  ⟨(poll_read_connection_aborted ⟨TlsState.Stream, ⟨0⟩⟩ _ (Or.inl rfl) rfl).1,
   ((poll_read_connection_aborted ⟨TlsState.Stream, ⟨0⟩⟩ _ (Or.inl rfl) rfl).2.2.1 rfl).1,
   ((poll_read_connection_aborted ⟨TlsState.Stream, ⟨0⟩⟩ _ (Or.inl rfl) rfl).2.2.1 rfl).2⟩

/-- C2: `poll_shutdown` is idempotent with respect to the close-notify —
the first call with the write direction open queues exactly one
close-notify and marks write closed before delegating to the ciphertext
drain; after any call the write direction is closed, so every subsequent
call changes neither state nor session and proceeds directly to the
drain/complete step (its result is the drain's outcome). -/
theorem poll_shutdown_idempotent (s : TlsStream) (i1 i2 : Poll Unit) :
    (s.poll_shutdown i1).2 = i1 ∧
    (s.poll_shutdown i1).1.state.writeable = false ∧
    (s.state.writeable = true →
      (s.poll_shutdown i1).1.session.closeNotifyCount
        = s.session.closeNotifyCount + 1) ∧
    (s.state.writeable = false → (s.poll_shutdown i1).1 = s) ∧
    ((s.poll_shutdown i1).1.poll_shutdown i2) = ((s.poll_shutdown i1).1, i2) := by
  by_cases hw : s.state.writeable <;>
    simp [TlsStream.poll_shutdown, hw, shutdown_write_writeable,
      ServerSession.send_close_notify]

/-- Witness for C2: two shutdown calls on an open stream. -/
theorem poll_shutdown_idempotent_witness :
    ((TlsStream.mk TlsState.Stream ⟨0⟩).poll_shutdown Poll.Pending).1.session.closeNotifyCount = 1 ∧
    (((TlsStream.mk TlsState.Stream ⟨0⟩).poll_shutdown Poll.Pending).1.poll_shutdown
        (Poll.Ready (Except.ok ())))
      = (((TlsStream.mk TlsState.Stream ⟨0⟩).poll_shutdown Poll.Pending).1,
         Poll.Ready (Except.ok ())) :=
  ⟨(poll_shutdown_idempotent ⟨TlsState.Stream, ⟨0⟩⟩ Poll.Pending
      (Poll.Ready (Except.ok ()))).2.2.1 rfl,
   (poll_shutdown_idempotent ⟨TlsState.Stream, ⟨0⟩⟩ Poll.Pending
      (Poll.Ready (Except.ok ()))).2.2.2.2⟩

/-- C3: once the read direction is closed (`ReadShutdown` or
`FullyShutdown`), every `poll_read` returns `Ready(Ok(0))` immediately,
leaves the state unchanged, and its outcome does not depend on the inner
transport poll at all (no transport I/O). -/
theorem poll_read_read_closed (s : TlsStream) (i : Poll Nat)
    (hs : s.state = TlsState.ReadShutdown ∨ s.state = TlsState.FullyShutdown) :
    s.poll_read i = (s, Poll.Ready (Except.ok 0)) := by
  rcases hs with h | h <;> simp [TlsStream.poll_read, h]

/-- Witness for C3: a read-shut stream with a pending transport. -/
theorem poll_read_read_closed_witness :
    (TlsStream.mk TlsState.ReadShutdown ⟨2⟩).poll_read Poll.Pending
      = (TlsStream.mk TlsState.ReadShutdown ⟨2⟩, Poll.Ready (Except.ok 0)) :=
  poll_read_read_closed ⟨TlsState.ReadShutdown, ⟨2⟩⟩ Poll.Pending (Or.inl rfl)

/-- C5: clean close — in a readable state, when the inner stream reports
zero plaintext bytes, `poll_read` marks the read direction closed, leaves
the session untouched, and returns an empty non-erroneous read
`Ready(Ok(0))`. -/
theorem poll_read_clean_close (s : TlsStream)
    (hs : s.state = TlsState.Stream ∨ s.state = TlsState.WriteShutdown) :
    s.poll_read (Poll.Ready (Except.ok 0))
      = ({ s with state := s.state.shutdown_read }, Poll.Ready (Except.ok 0)) ∧
    (s.poll_read (Poll.Ready (Except.ok 0))).1.state.readable = false := by
  rcases hs with h | h <;>
    simp [TlsStream.poll_read, h, TlsState.shutdown_read, TlsState.readable]

/-- Witness for C5: a zero-byte read on an open stream. -/
theorem poll_read_clean_close_witness :
    (TlsStream.mk TlsState.Stream ⟨3⟩).poll_read (Poll.Ready (Except.ok 0))
      = (TlsStream.mk TlsState.ReadShutdown ⟨3⟩, Poll.Ready (Except.ok 0)) ∧
    ((TlsStream.mk TlsState.Stream ⟨3⟩).poll_read
        (Poll.Ready (Except.ok 0))).1.state.readable = false :=
  poll_read_clean_close ⟨TlsState.Stream, ⟨3⟩⟩ (Or.inl rfl)

/-- C6: `poll_write` accepts writes even after the read direction is
locally marked closed — the driver passes the inner outcome through
unchanged and, for every state whatsoever, never substitutes a refusal of
its own, so the only write restriction can come from the write-closed
bookkeeping of the engine, not from the remote read state. -/
theorem poll_write_unrestricted (s : TlsStream) (i : Poll Nat)
    (h : s.state.readable = false) :
    s.poll_write i = (s, i) ∧
    ∀ s' : TlsStream, (s'.poll_write i).2 = i := by
  exact ⟨rfl, fun s' => rfl⟩

/-- Witness for C6: a write on a stream whose read direction is closed. -/
theorem poll_write_unrestricted_witness :
    (TlsStream.mk TlsState.ReadShutdown ⟨1⟩).poll_write (Poll.Ready (Except.ok 5))
      = (TlsStream.mk TlsState.ReadShutdown ⟨1⟩, Poll.Ready (Except.ok 5)) :=
  (poll_write_unrestricted ⟨TlsState.ReadShutdown, ⟨1⟩⟩
    (Poll.Ready (Except.ok 5)) rfl).1

/-- C7: any transport error observed during `poll_read` other than
`ConnectionAborted` is propagated to the caller unchanged — the very same
error value, as `Ready(Err(e))` — with state and session untouched. -/
theorem poll_read_error_propagated (s : TlsStream) (e : IOError)
    (hs : s.state = TlsState.Stream ∨ s.state = TlsState.WriteShutdown)
    (he : e.kind ≠ ErrorKind.ConnectionAborted) :
    s.poll_read (Poll.Ready (Except.error e)) = (s, Poll.Ready (Except.error e)) := by
  rcases hs with h | h <;> simp [TlsStream.poll_read, h, he]

/-- Witness for C7: an unexpected-end-of-file error passes through. -/
theorem poll_read_error_propagated_witness :
    (TlsStream.mk TlsState.Stream ⟨4⟩).poll_read
        (Poll.Ready (Except.error ⟨ErrorKind.UnexpectedEof, 42⟩))
      = (TlsStream.mk TlsState.Stream ⟨4⟩,
         Poll.Ready (Except.error ⟨ErrorKind.UnexpectedEof, 42⟩)) :=
  poll_read_error_propagated ⟨TlsState.Stream, ⟨4⟩⟩
    ⟨ErrorKind.UnexpectedEof, 42⟩ (Or.inl rfl) (by decide)

/-- C10: in a readable state, a `poll_read` whose inner stream outcome is
`Ready(Ok(0))` — including a zero-length destination buffer on a healthy
connection — marks the read direction closed, and afterwards every
`poll_read` returns an immediate empty read without consulting the inner
transport poll. -/
theorem poll_read_zero_absorbing (s : TlsStream)
    (hs : s.state = TlsState.Stream ∨ s.state = TlsState.WriteShutdown) :
    (s.poll_read (Poll.Ready (Except.ok 0))).1.state.readable = false ∧
    ∀ j : Poll Nat,
      ((s.poll_read (Poll.Ready (Except.ok 0))).1).poll_read j
        = ((s.poll_read (Poll.Ready (Except.ok 0))).1, Poll.Ready (Except.ok 0)) := by
  rcases hs with h | h <;>
    refine ⟨by simp [TlsStream.poll_read, h, TlsState.shutdown_read,
      TlsState.readable], fun j => ?_⟩ <;>
    simp [TlsStream.poll_read, h, TlsState.shutdown_read]

/-- Witness for C10: after a zero-byte read on a write-shut stream, a
later read with a pending transport still completes empty. -/
theorem poll_read_zero_absorbing_witness :
    ((TlsStream.mk TlsState.WriteShutdown ⟨5⟩).poll_read
        (Poll.Ready (Except.ok 0))).1.state.readable = false ∧
    (((TlsStream.mk TlsState.WriteShutdown ⟨5⟩).poll_read
        (Poll.Ready (Except.ok 0))).1).poll_read Poll.Pending
      = (((TlsStream.mk TlsState.WriteShutdown ⟨5⟩).poll_read
          (Poll.Ready (Except.ok 0))).1, Poll.Ready (Except.ok 0)) :=
  ⟨(poll_read_zero_absorbing ⟨TlsState.WriteShutdown, ⟨5⟩⟩ (Or.inr rfl)).1,
   (poll_read_zero_absorbing ⟨TlsState.WriteShutdown, ⟨5⟩⟩ (Or.inr rfl)).2
     Poll.Pending⟩

/-- C8: when the transport reaches end-of-file before a complete first
handshake flight — in particular a transport that delivers zero bytes then
closes — the deferred acceptor terminates (it is a total function, so it
cannot hang) with the unexpected-end-of-data failure, for every engine and
engine state; it never resolves successfully. -/
theorem acceptLoop_empty_eof {σ H : Type}
    (engine : σ → List Nat → EngineStep σ H) (st : σ) :
    acceptLoop engine st [] = Except.error AcceptError.unexpectedEof :=
  rfl

/-- Witness for C8: a concrete engine over a unit state on the empty
transport. -/
theorem acceptLoop_empty_eof_witness :
    acceptLoop (fun (_ : Unit) (_ : List Nat) =>
        (EngineStep.malformed : EngineStep Unit Unit)) () []
      = Except.error AcceptError.unexpectedEof :=
  acceptLoop_empty_eof _ ()

/-- C9: the first `take_io` call on a fresh acceptor returns the
transport, and after any positive number of calls every further `take_io`
yields nothing — the acceptor is exhausted. -/
theorem take_io_exhaustion {T : Type} (t : T) :
    ((LazyConfigAcceptor.new t).take_io).1 = some t ∧
    ∀ k : Nat,
      (((LazyConfigAcceptor.new t).afterCalls (k + 1)).take_io).1 = none := by
  refine ⟨rfl, fun k => ?_⟩
  have hsnd : ∀ a : LazyConfigAcceptor T, (a.take_io).2 = ⟨none⟩ := by
    intro a
    rcases a with ⟨_ | t0⟩ <;> rfl
  have hafter : ((LazyConfigAcceptor.new t).afterCalls (k + 1)) =
      (⟨none⟩ : LazyConfigAcceptor T) := by
    show (((LazyConfigAcceptor.new t).afterCalls k).take_io).2 = _
    exact hsnd _
  rw [hafter]
  rfl

/-- Witness for C9: a concrete transport handle, taken once and then
again. -/
theorem take_io_exhaustion_witness :
    ((LazyConfigAcceptor.new (0 : Nat)).take_io).1 = some 0 ∧
    (((LazyConfigAcceptor.new (0 : Nat)).afterCalls 1).take_io).1 = none :=
  ⟨(take_io_exhaustion 0).1, (take_io_exhaustion 0).2 0⟩

end TokioRustls
